import Mathlib

/-!
Formal model of the LumiBot music queue and playback session logic.

The definitions below are a shallow embedding of `src/music/queue.py`
(class `MusicQueue`) and `src/music/player.py` (class `MusicPlayer`).
Python tuples `(title, url)` and `(title, url, timestamp)` are modelled
by a single `Entry` structure whose `timestamp` field is an `Option`:
`none` corresponds to a 2-tuple and `some ts` to a 3-tuple.  Side
effects are made explicit: chat messages (`ctx.send`) are returned as
lists of strings, the voice client is a pair of booleans
(`voice_connected` for "a voice client exists and is connected",
`transport_playing` for `voice_client.is_playing()`), and the
idle-disconnect task is an `Option Timer` carrying a fresh id and its
delay in seconds.
-/

/-- A queue entry: Python `(title, url)` when `timestamp = none`, and
`(title, url, timestamp)` when `timestamp = some ts`. -/
structure Entry where
  title : String
  url : String
  timestamp : Option Int
deriving DecidableEq

/-- State of `MusicQueue` (queue.py): the pending list `_queue` and the
current-item slot `_current_item`. -/
structure MusicQueue where
  pending : List Entry
  current_item : Option Entry
deriving DecidableEq

/-- The empty queue built by `MusicQueue.__init__`. -/
def MusicQueue.init : MusicQueue := { pending := [], current_item := none }

/-- `MusicQueue.is_empty` (queue.py line 28). -/
def MusicQueue.is_empty (q : MusicQueue) : Bool := q.pending.length == 0

/-- `MusicQueue.length` (queue.py line 33). -/
def MusicQueue.size (q : MusicQueue) : Nat := q.pending.length

/-- `MusicQueue.add` (queue.py line 37): append `(title, url)`. -/
def MusicQueue.add (q : MusicQueue) (title url : String) : MusicQueue :=
  { q with pending := q.pending ++ [⟨title, url, none⟩] }

/-- `MusicQueue.add_to_front` (queue.py line 47): insert at index 0,
with the timestamp stored as a third tuple element when present. -/
def MusicQueue.add_to_front (q : MusicQueue) (title url : String)
    (timestamp : Option Int) : MusicQueue :=
  match timestamp with
  | some ts => { q with pending := ⟨title, url, some ts⟩ :: q.pending }
  | none => { q with pending := ⟨title, url, none⟩ :: q.pending }

/-- `MusicQueue.add_list` (queue.py line 62): extend with `(title, url)`
pairs. -/
def MusicQueue.add_list (q : MusicQueue) (items : List (String × String)) : MusicQueue :=
  { q with pending := q.pending ++ items.map (fun p => ⟨p.1, p.2, none⟩) }

/-- `MusicQueue.clear` (queue.py line 71). -/
def MusicQueue.clear (_q : MusicQueue) : MusicQueue :=
  { pending := [], current_item := none }

/-- `MusicQueue.shuffle` (queue.py line 76): `random.shuffle` permutes
`_queue` in place, and is only invoked when `len(self._queue) > 1`.
The permutation chosen by the random generator is passed in as `f`. -/
def MusicQueue.shuffle (q : MusicQueue) (f : List Entry → List Entry) : MusicQueue :=
  if 1 < q.pending.length then { q with pending := f q.pending } else q

/-- `MusicQueue.remove` (queue.py line 81): pop at a 0-based index when
it is in range, returning the removed item. -/
def MusicQueue.remove (q : MusicQueue) (index : Int) : MusicQueue × Option Entry :=
  if 0 ≤ index ∧ index < (q.pending.length : Int) then
    (( { q with pending := q.pending.take index.toNat ++ q.pending.drop (index.toNat + 1) } ),
     q.pending[index.toNat]?)
  else (q, none)

/-- `MusicQueue.skip_to` (queue.py line 95): for a 1-based `index` in
range, `del self._queue[:index - 1]` drops everything before it. -/
def MusicQueue.skip_to (q : MusicQueue) (index : Int) : MusicQueue :=
  if 1 ≤ index ∧ index ≤ (q.pending.length : Int) then
    { q with pending := q.pending.drop (index - 1).toNat }
  else q

/-- `MusicQueue.get_next` (queue.py line 106): pop index 0; a 3-element
item is stored as `(title, url)` in `_current_item` but returned whole;
on an empty queue `_current_item` is reset and nothing is returned. -/
def MusicQueue.get_next (q : MusicQueue) : MusicQueue × Option Entry :=
  match q.pending with
  | [] => ({ q with current_item := none }, none)
  | next :: rest =>
    match next.timestamp with
    | some ts =>
        ({ pending := rest, current_item := some ⟨next.title, next.url, none⟩ },
         some ⟨next.title, next.url, some ts⟩)
    | none =>
        ({ pending := rest, current_item := some next }, some next)

theorem get_next_cons (q : MusicQueue) (x : Entry) (xs : List Entry)
    (h : q.pending = x :: xs) :
    q.get_next = ({ pending := xs, current_item := some ⟨x.title, x.url, none⟩ }, some x) := by
  obtain ⟨t, u, ts⟩ := x
  cases ts <;> simp [MusicQueue.get_next, h]

theorem get_next_nil (q : MusicQueue) (h : q.pending = []) :
    q.get_next = ({ q with current_item := none }, none) := by
  simp [MusicQueue.get_next, h]

/-- The idle-disconnect task created by `asyncio.create_task(
self._disconnect_after_delay(ctx))`: a fresh task identity together
with the delay (in seconds) it will sleep before firing. -/
structure Timer where
  id : Nat
  delay : Nat
deriving DecidableEq

/-- State of `MusicPlayer` (player.py) together with the queue
singleton it mutates and the observable state of the voice transport.
`is_playing`/`current` are the fields of the same name,
`disconnect_timer` the idle task, `voice_connected` stands for
"`self.voice_client` exists and `is_connected()`", and
`transport_playing` for `voice_client.is_playing()`. `next_timer_id`
supplies fresh task identities. -/
structure PlayerState where
  is_playing : Bool
  current : Option Entry
  q : MusicQueue
  voice_connected : Bool
  transport_playing : Bool
  disconnect_timer : Option Timer
  next_timer_id : Nat
deriving DecidableEq

/-- `MusicPlayer._play_next` (player.py lines 174-229).  The pending
idle task is cancelled first; on an empty queue the player goes idle
and arms a fresh 120-second idle task; otherwise `get_next` pops the
front item and `YTDLSource.from_url` is attempted for it — its success
is decided by the oracle `resolve`.  On success the voice-connection
check either starts transport playback (registering `after_play`) or,
when the connection is lost, bails out with `is_playing = False`.  A
`from_url` failure is caught and `_play_next` recurses.  The returned
list collects the `ctx.send` messages. -/
def play_next (resolve : Entry → Bool) (s : PlayerState) : PlayerState × List String :=
  let s0 : PlayerState := { s with disconnect_timer := none }
  match hq : s0.q.pending with
  | [] =>
      ({ s0 with is_playing := false, current := none,
                 disconnect_timer := some ⟨s0.next_timer_id, 120⟩,
                 next_timer_id := s0.next_timer_id + 1 }, [])
  | x :: xs =>
      let p := s0.q.get_next
      let s1 : PlayerState := { s0 with is_playing := true, current := p.2, q := p.1 }
      match p.2 with
      | none => (s1, [])  -- unreachable: `get_next` on a nonempty queue returns an item
      | some item =>
          if resolve item then
            if s1.voice_connected then
              ({ s1 with transport_playing := true }, ["Now playing: " ++ item.title])
            else
              ({ s1 with is_playing := false },
               ["Voice connection lost. Please try rejoining the voice channel."])
          else
            let r := play_next resolve s1
            (r.1, ("An error occurred while playing (" ++ item.title ++ ")") :: r.2)
termination_by s.q.pending.length
decreasing_by
  simp only [get_next_cons _ x xs hq]
  simp only [show s0.q = s.q from rfl] at hq
  simp [hq]

/-- One observable action of the completion callback: a `print` to the
log, a `ctx.send` to chat, or scheduling `_play_next` on the loop via
`run_coroutine_threadsafe`. -/
inductive BotAction where
  | log (msg : String)
  | send (msg : String)
  | schedule_play_next
deriving DecidableEq

/-- Does `pat` match at the head of `s`? -/
def prefixMatch : List Char → List Char → Bool
  | [], _ => true
  | _ :: _, [] => false
  | a :: as, b :: bs => a = b && prefixMatch as bs

/-- Does `pat` occur anywhere in `s`? -/
def subMatch (pat : List Char) : List Char → Bool
  | [] => prefixMatch pat []
  | c :: rest => prefixMatch pat (c :: rest) || subMatch pat rest

/-- Python `pat in s` substring test. -/
def containsSub (s pat : String) : Bool := subMatch pat.toList s.toList

/-- `after_play` (player.py lines 212-222), the completion callback
registered with `voice_client.play`.  An error is logged, chat-notified
unless it mentions "Connection" or "WebSocket", and `_play_next` is
scheduled unconditionally at the end. -/
def after_play (error : Option String) : List BotAction :=
  (match error with
   | some e =>
       BotAction.log ("Playback error: " ++ e) ::
         (if ¬ containsSub e "Connection" ∧ ¬ containsSub e "WebSocket"
          then [BotAction.send ("An error occurred: " ++ e)]
          else [])
   | none => []) ++ [BotAction.schedule_play_next]

/-- Body of `MusicPlayer._disconnect_after_delay` (player.py lines
231-255) after its 120-second sleep completes without cancellation:
disconnect only when the queue is still empty, nothing is playing and
a connected voice client exists; otherwise a no-op.  The boolean
result records whether a disconnect happened. -/
def timer_fire (s : PlayerState) : PlayerState × Bool × List String :=
  if s.q.is_empty ∧ s.is_playing = false then
    if s.voice_connected then
      ({ s with voice_connected := false, transport_playing := false }, true,
       ["Disconnected due to inactivity."])
    else (s, false, [])
  else (s, false, [])

/-- Success path of `MusicPlayer._handle_url` (player.py lines
130-136), the enqueue performed by the play command once the title and
url are resolved: `queue_manager.add`, an "Added to queue" notice, and
`_play_next` when nothing is playing (the search and playlist commands
end in the same add-then-advance sequence). -/
def handle_url_ok (resolve : Entry → Bool) (s : PlayerState) (title url : String) :
    PlayerState × List String :=
  let s1 : PlayerState := { s with q := s.q.add title url }
  if s1.is_playing = false then
    let r := play_next resolve s1
    (r.1, ("Added to queue: " ++ title) :: r.2)
  else (s1, ["Added to queue: " ++ title])

/-- Accumulate a decimal number from digit characters; `none` on an
empty or non-digit sequence. -/
def digitsVal (cs : List Char) : Option Nat :=
  if cs = [] then none
  else cs.foldl
    (fun acc c =>
      match acc with
      | none => none
      | some n => if c.isDigit then some (n * 10 + (c.toNat - 48)) else none)
    (some 0)

/-- Python `int(...)` on one split field: an optional sign followed by
digits, `ValueError` (here `none`) otherwise. -/
def pyInt : List Char → Option Int
  | '-' :: rest => (digitsVal rest).map (fun n => -(n : Int))
  | '+' :: rest => (digitsVal rest).map (fun n => (n : Int))
  | cs => (digitsVal cs).map (fun n => (n : Int))

/-- Python `str.split(sep)` for a one-character separator. -/
def splitOnChar (sep : Char) : List Char → List (List Char)
  | [] => [[]]
  | c :: rest =>
      match splitOnChar sep rest with
      | [] => [[]]  -- unreachable: the split of any suffix is nonempty
      | g :: gs => if c = sep then [] :: g :: gs else (c :: g) :: gs

/-- Python `map(int, timestamp.split(':'))` followed by unpacking into
`minutes, seconds`: exactly two ':'-separated integer fields, anything
else raises `ValueError`. -/
def parseTimestamp (ts : String) : Option (Int × Int) :=
  match (splitOnChar ':' ts.toList).map pyInt with
  | [some m, some s] => some (m, s)
  | _ => none

/-- `MusicPlayer.timestamp_skip` (player.py lines 296-335).  Requires a
playing voice client; parses `mm:ss` (a parse failure, and also the
`title, url = current_song` unpacking of a 3-tuple current item, raise
`ValueError` which the handler answers with the invalid-format
notice); validates the field ranges; re-wraps the current song with
the offset via `add_to_front` and stops the transport so the
completion callback advances into it.  The boolean result records
whether `voice_client.stop()` was called. -/
def timestamp_skip (s : PlayerState) (ts : String) : PlayerState × Bool × List String :=
  if ¬ (s.voice_connected = true ∧ s.transport_playing = true) then
    (s, false, ["The bot is not playing anything at the moment."])
  else
    match parseTimestamp ts with
    | none => (s, false, ["Invalid timestamp format. Use mm:ss or m:ss."])
    | some (minutes, seconds) =>
      if minutes < 0 ∨ seconds < 0 ∨ 60 ≤ seconds then
        (s, false, ["Invalid timestamp format. Use mm:ss or m:ss."])
      else
        let total_seconds := minutes * 60 + seconds
        match s.current with
        | none => (s, false, ["No current song found in queue."])
        | some song =>
          match song.timestamp with
          | some _ =>
              -- `title, url = current_song` on a 3-tuple raises ValueError,
              -- caught by the same `except ValueError` handler
              (s, false, ["Invalid timestamp format. Use mm:ss or m:ss."])
          | none =>
              ({ s with
                   q := s.q.add_to_front (song.title ++ " (from " ++ ts ++ ")")
                          song.url (some total_seconds),
                   transport_playing := false },
               true,
               ["Skipping to " ++ ts ++ " in " ++ song.title ++ "..."])

/-- `MusicPlayer.leave` (player.py lines 337-361).  With a voice client
(`ctx.voice_client`): stop playback if playing, disconnect, clear the
queue, reset `is_playing`/`current`, drop the client and cancel the
idle task.  Without one: only a notice, nothing is touched. -/
def leave (s : PlayerState) : PlayerState × List String :=
  if s.voice_connected then
    ({ s with transport_playing := false,
              voice_connected := false,
              q := s.q.clear,
              is_playing := false,
              current := none,
              disconnect_timer := none },
     ["The bot has left the voice channel."])
  else
    (s, ["The bot is not connected to a voice channel."])

/-- Environment of `MusicPlayer.connect_to_voice`: whether the author
is in a voice channel, whether an existing connected client is already
on that same channel or on a different one, and which connect attempts
would succeed. -/
structure ConnectEnv where
  author_in_voice : Bool
  same_channel_connected : Bool
  other_channel_connected : Bool
  attempt_ok : Nat → Bool

/-- Observable outcome of `connect_to_voice`: whether a voice client
was returned, the `asyncio.sleep` delays performed (in seconds), the
chat messages, and how many connect attempts were made. -/
structure ConnectOut where
  connected : Bool
  sleeps : List Nat
  sends : List String
  attempts : Nat
deriving DecidableEq

/-- The `for attempt in range(retries)` loop of `connect_to_voice`
(player.py lines 70-85), run over the list of remaining attempt
indices: a successful attempt returns the client; a failed non-final
attempt notifies, sleeps `2 ** attempt` seconds and continues; the
final failed attempt notifies and returns `None`. -/
def connect_loop (attempt_ok : Nat → Bool) (retries : Nat) : List Nat → ConnectOut
  | [] => { connected := false, sleeps := [], sends := [], attempts := 0 }
  | attempt :: rest =>
    if attempt_ok attempt then
      { connected := true, sleeps := [], sends := ["Joined the voice channel"], attempts := 1 }
    else if attempt < retries - 1 then
      let r := connect_loop attempt_ok retries rest
      { connected := r.connected,
        sleeps := 2 ^ attempt :: r.sleeps,
        sends := ("Connection attempt " ++ toString (attempt + 1) ++ " failed, retrying...")
                   :: r.sends,
        attempts := r.attempts + 1 }
    else
      { connected := false, sleeps := [],
        sends := ["Failed to join after " ++ toString retries ++ " attempts"],
        attempts := 1 }

/-- `MusicPlayer.connect_to_voice` (player.py lines 37-85, default
`retries = 3`).  No author voice channel: notice and `None`.  Already
connected to the author's channel: reuse the client.  Connected to a
different channel: disconnect first with a 1-second pause.  Then the
retry loop over `range(retries)`. -/
def connect_to_voice (env : ConnectEnv) (s : PlayerState) (retries : Nat) :
    PlayerState × ConnectOut :=
  if env.author_in_voice = false then
    (s, { connected := false, sleeps := [],
          sends := ["author is not connected to a voice channel"], attempts := 0 })
  else if env.same_channel_connected then
    ({ s with voice_connected := true },
     { connected := true, sleeps := [], sends := [], attempts := 0 })
  else
    let pre_sleeps : List Nat := if env.other_channel_connected then [1] else []
    let r := connect_loop env.attempt_ok retries (List.range retries)
    (if r.connected then { s with voice_connected := true } else s,
     { r with sleeps := pre_sleeps ++ r.sleeps })

/-- One call into the `MusicQueue` interface.  The `shuffle`
constructor carries the permutation the random generator would
produce. -/
inductive QOp where
  | add (title url : String)
  | add_to_front (title url : String) (timestamp : Option Int)
  | add_list (items : List (String × String))
  | clear
  | shuffle (f : List Entry → List Entry)
  | remove (index : Int)
  | skip_to (index : Int)
  | get_next

/-- Effect of one `MusicQueue` call on the store (return values
dropped). -/
def QOp.apply (q : MusicQueue) : QOp → MusicQueue
  | .add t u => q.add t u
  | .add_to_front t u ts => q.add_to_front t u ts
  | .add_list items => q.add_list items
  | .clear => q.clear
  | .shuffle f => q.shuffle f
  | .remove i => (q.remove i).1
  | .skip_to i => q.skip_to i
  | .get_next => q.get_next.1

/-- Run a sequence of `MusicQueue` calls from a given store state. -/
def runOps (q : MusicQueue) : List QOp → MusicQueue
  | [] => q
  | op :: rest => runOps (op.apply q) rest

/-- The operations of the FIFO claim: `add` and `get_next` only. -/
inductive FifoOp where
  | add (title url : String)
  | get_next
deriving DecidableEq

/-- Run a sequence of `add`/`get_next` calls, collecting the items that
`get_next` returned, in order. -/
def runFifo (q : MusicQueue) : List FifoOp → MusicQueue × List Entry
  | [] => (q, [])
  | FifoOp.add t u :: rest => runFifo (q.add t u) rest
  | FifoOp.get_next :: rest =>
      let p := q.get_next
      let r := runFifo p.1 rest
      (r.1, p.2.toList ++ r.2)

/-- The entries enqueued by a sequence of `add`/`get_next` calls, in
insertion order. -/
def enqueuedFifo : List FifoOp → List Entry
  | [] => []
  | FifoOp.add t u :: rest => ⟨t, u, none⟩ :: enqueuedFifo rest
  | FifoOp.get_next :: rest => enqueuedFifo rest

theorem runFifo_split (ops : List FifoOp) : ∀ q : MusicQueue,
    (runFifo q ops).2 ++ (runFifo q ops).1.pending = q.pending ++ enqueuedFifo ops := by
  induction ops with
  | nil => intro q; simp [runFifo, enqueuedFifo]
  | cons op rest ih =>
      intro q
      cases op with
      | add t u =>
          have h := ih (q.add t u)
          simp only [runFifo, enqueuedFifo]
          rw [h]
          simp [MusicQueue.add]
      | get_next =>
          cases hq : q.pending with
          | nil =>
              have h := ih (q.get_next).1
              simp only [runFifo, enqueuedFifo]
              rw [get_next_nil q hq] at h ⊢
              simpa [hq] using h
          | cons x xs =>
              have h := ih (q.get_next).1
              rw [get_next_cons q x xs hq] at h
              simp at h
              simp only [runFifo, enqueuedFifo]
              rw [get_next_cons q x xs hq]
              simp [hq, h]

theorem runOps_current_untimed (ops : List QOp) : ∀ q : MusicQueue,
    (∀ e, q.current_item = some e → e.timestamp = none) →
    ∀ e, (runOps q ops).current_item = some e → e.timestamp = none := by
  induction ops with
  | nil => intro q hq e he; exact hq e he
  | cons op rest ih =>
      intro q hq
      refine ih (op.apply q) ?_
      cases op with
      | add t u => intro e he; exact hq e he
      | add_to_front t u ts =>
          intro e he
          cases ts <;> exact hq e he
      | add_list items => intro e he; exact hq e he
      | clear => intro e he; simp [QOp.apply, MusicQueue.clear] at he
      | shuffle f =>
          intro e he
          simp only [QOp.apply, MusicQueue.shuffle] at he
          split at he <;> exact hq e he
      | remove i =>
          intro e he
          simp only [QOp.apply, MusicQueue.remove] at he
          split at he <;> exact hq e he
      | skip_to i =>
          intro e he
          simp only [QOp.apply, MusicQueue.skip_to] at he
          split at he <;> exact hq e he
      | get_next =>
          intro e he
          simp only [QOp.apply] at he
          cases hp : q.pending with
          | nil => rw [get_next_nil q hp] at he; simp at he
          | cons x xs =>
              rw [get_next_cons q x xs hp] at he
              simp at he
              rw [← he]

/-- Claim C3: for every sequence of `add`/`get_next` calls starting
from the empty queue, the items returned by `get_next` followed by the
still-pending items equal the full list of enqueued items in insertion
order — `get_next` dequeues in FIFO order. -/
theorem fifo_dequeue_order (ops : List FifoOp) :
    (runFifo MusicQueue.init ops).2 ++ (runFifo MusicQueue.init ops).1.pending
      = enqueuedFifo ops := by
  have h := runFifo_split ops MusicQueue.init
  simpa [MusicQueue.init] using h

/-- Claim C4: for a 1-indexed position `p` within the pending list,
`skip_to p` drops exactly the entries before position `p`, the entry
previously at position `p` becomes the new front, and the following
`get_next` returns it. -/
theorem skip_to_then_get_next (q : MusicQueue) (p : Int)
    (h1 : 1 ≤ p) (h2 : p ≤ (q.pending.length : Int)) :
    (q.skip_to p).pending = q.pending.drop (p - 1).toNat ∧
    ((q.skip_to p).pending).head? = q.pending[(p - 1).toNat]? ∧
    ((q.skip_to p).get_next).2 = q.pending[(p - 1).toNat]? := by
  have hlt : (p - 1).toNat < q.pending.length := by omega
  have hdrop := List.drop_eq_getElem_cons hlt
  have hpend : (q.skip_to p).pending = q.pending.drop (p - 1).toNat := by
    simp [MusicQueue.skip_to, h1, h2]
  refine ⟨hpend, ?_, ?_⟩
  · rw [hpend, hdrop]
    simp [List.getElem?_eq_getElem hlt]
  · have hcons : (q.skip_to p).pending
        = q.pending[(p - 1).toNat] :: q.pending.drop ((p - 1).toNat + 1) := by
      rw [hpend, hdrop]
    rw [get_next_cons (q.skip_to p) _ _ hcons]
    simp [List.getElem?_eq_getElem hlt]

theorem skip_to_then_get_next_witness :
    ((MusicQueue.mk [⟨"a", "u", none⟩, ⟨"b", "v", none⟩, ⟨"c", "w", none⟩] none).skip_to 2).pending
        = [(⟨"a", "u", none⟩ : Entry), ⟨"b", "v", none⟩, ⟨"c", "w", none⟩].drop
            ((2 : Int) - 1).toNat ∧
    (((MusicQueue.mk [⟨"a", "u", none⟩, ⟨"b", "v", none⟩, ⟨"c", "w", none⟩] none).skip_to
        2).pending).head?
        = [(⟨"a", "u", none⟩ : Entry), ⟨"b", "v", none⟩, ⟨"c", "w", none⟩][((2 : Int) - 1).toNat]? ∧
    (((MusicQueue.mk [⟨"a", "u", none⟩, ⟨"b", "v", none⟩, ⟨"c", "w", none⟩] none).skip_to
        2).get_next).2
        = [(⟨"a", "u", none⟩ : Entry), ⟨"b", "v", none⟩, ⟨"c", "w", none⟩][((2 : Int) - 1).toNat]? :=
  skip_to_then_get_next
    (MusicQueue.mk [⟨"a", "u", none⟩, ⟨"b", "v", none⟩, ⟨"c", "w", none⟩] none) 2
    (by decide) (by decide)

/-- Claim C8: `shuffle` only touches the pending list: the current
slot is unchanged, the multiset of pending entries is preserved
whenever the supplied permutation is one, and with fewer than two
pending entries the queue is left exactly as it was. -/
theorem shuffle_frame (q : MusicQueue) (f : List Entry → List Entry)
    (hf : (f q.pending).Perm q.pending) :
    (q.shuffle f).current_item = q.current_item ∧
    ((q.shuffle f).pending).Perm q.pending ∧
    (q.pending.length < 2 → q.shuffle f = q) := by
  by_cases h : 1 < q.pending.length
  · refine ⟨by simp [MusicQueue.shuffle, h], by simpa [MusicQueue.shuffle, h] using hf,
      fun hlt => absurd h (by omega)⟩
  · refine ⟨by simp [MusicQueue.shuffle, h], by simp [MusicQueue.shuffle, h],
      fun _ => by simp [MusicQueue.shuffle, h]⟩

theorem shuffle_frame_witness :
    ((MusicQueue.mk [⟨"a", "u", none⟩, ⟨"b", "v", none⟩] none).shuffle List.reverse).current_item
        = none ∧
    (((MusicQueue.mk [⟨"a", "u", none⟩, ⟨"b", "v", none⟩] none).shuffle List.reverse).pending).Perm
        [⟨"a", "u", none⟩, ⟨"b", "v", none⟩] ∧
    (([(⟨"a", "u", none⟩ : Entry), ⟨"b", "v", none⟩].length < 2) →
      (MusicQueue.mk [⟨"a", "u", none⟩, ⟨"b", "v", none⟩] none).shuffle List.reverse
        = MusicQueue.mk [⟨"a", "u", none⟩, ⟨"b", "v", none⟩] none) :=
  shuffle_frame (MusicQueue.mk [⟨"a", "u", none⟩, ⟨"b", "v", none⟩] none) List.reverse
    (List.reverse_perm _)

/-- Claim C10: after any sequence of `MusicQueue` operations from the
initial empty store, the current slot never carries a start-offset
third component: `get_next` strips the timestamp before storing the
current item. -/
theorem current_slot_never_timestamped (ops : List QOp) (e : Entry)
    (h : (runOps MusicQueue.init ops).current_item = some e) : e.timestamp = none :=
  runOps_current_untimed ops MusicQueue.init (by simp [MusicQueue.init]) e h

theorem current_slot_never_timestamped_witness :
    (Entry.mk "a" "u" none).timestamp = none :=
  current_slot_never_timestamped
    [QOp.add_to_front "a" "u" (some 90), QOp.get_next] ⟨"a", "u", none⟩ (by decide)

/-- The player state right after `_play_next` pops entry `x` (leaving
`xs` pending): idle task cancelled, `is_playing` set, `current` set to
the popped item and the queue advanced by `get_next`. -/
def after_pop (s : PlayerState) (x : Entry) (xs : List Entry) : PlayerState :=
  { s with disconnect_timer := none, is_playing := true,
           current := some x, q := ⟨xs, some ⟨x.title, x.url, none⟩⟩ }

theorem play_next_nil (resolve : Entry → Bool) (s : PlayerState) (h : s.q.pending = []) :
    play_next resolve s =
      ({ s with is_playing := false, current := none,
                disconnect_timer := some ⟨s.next_timer_id, 120⟩,
                next_timer_id := s.next_timer_id + 1 }, []) := by
  rw [play_next.eq_def]
  dsimp only
  split
  · rfl
  · next x xs heq => rw [h] at heq; cases heq

theorem play_next_cons (resolve : Entry → Bool) (s : PlayerState) (x : Entry)
    (xs : List Entry) (h : s.q.pending = x :: xs) :
    play_next resolve s =
      (if resolve x then
        (if s.voice_connected then
          ({ after_pop s x xs with transport_playing := true }, ["Now playing: " ++ x.title])
         else
          ({ after_pop s x xs with is_playing := false },
           ["Voice connection lost. Please try rejoining the voice channel."]))
       else
        ((play_next resolve (after_pop s x xs)).1,
         ("An error occurred while playing (" ++ x.title ++ ")") ::
           (play_next resolve (after_pop s x xs)).2)) := by
  conv_lhs => rw [play_next.eq_def]
  dsimp only
  split
  · next heq => rw [h] at heq; cases heq
  · next y ys heq =>
      rw [h] at heq
      injection heq with h1 h2
      subst h1; subst h2
      rw [get_next_cons s.q x xs h]
      dsimp only [after_pop]

theorem play_next_consistent_aux (resolve : Entry → Bool) :
    ∀ n (s : PlayerState), s.q.pending.length ≤ n → s.voice_connected = true →
      (((play_next resolve s).1.is_playing = true ∧
        ((play_next resolve s).1.current).isSome = true ∧
        (play_next resolve s).1.transport_playing = true)
       ∨ ((play_next resolve s).1.is_playing = false ∧
          (play_next resolve s).1.current = none ∧
          (play_next resolve s).1.q.pending = [])) := by
  intro n
  induction n with
  | zero =>
      intro s hlen hv
      have h : s.q.pending = [] := by
        cases hp : s.q.pending with
        | nil => rfl
        | cons a as => rw [hp] at hlen; simp at hlen
      rw [play_next_nil resolve s h]
      right
      exact ⟨rfl, rfl, h⟩
  | succ n ih =>
      intro s hlen hv
      cases hp : s.q.pending with
      | nil =>
          rw [play_next_nil resolve s hp]
          right
          exact ⟨rfl, rfl, hp⟩
      | cons x xs =>
          rw [play_next_cons resolve s x xs hp]
          by_cases hr : resolve x
          · left
            simp [hr, hv, after_pop]
          · have hlen1 : (after_pop s x xs).q.pending.length ≤ n := by
              rw [hp] at hlen
              simpa [after_pop] using Nat.lt_succ_iff.mp (Nat.lt_of_lt_of_le (by simp) hlen)
            have hv1 : (after_pop s x xs).voice_connected = true := hv
            have := ih (after_pop s x xs) hlen1 hv1
            simpa [hr] using this

/-- Claim C1 (amended): provided the voice connection is up when
playback is attempted, every `_play_next` call that pops a track ends
either Playing — `is_playing` with a current track and the transport
running — or consistently Idle with no current track and an empty
queue.  Without the voice-connected hypothesis the claim fails: see
the counterexample, where the lost-connection bailout leaves
`is_playing = False` with `current` still set. -/
theorem advance_consistent (resolve : Entry → Bool) (s : PlayerState)
    (hpop : s.q.pending ≠ []) (hvoice : s.voice_connected = true) :
    (((play_next resolve s).1.is_playing = true ∧
      ((play_next resolve s).1.current).isSome = true ∧
      (play_next resolve s).1.transport_playing = true)
     ∨ ((play_next resolve s).1.is_playing = false ∧
        (play_next resolve s).1.current = none ∧
        (play_next resolve s).1.q.pending = [])) :=
  play_next_consistent_aux resolve s.q.pending.length s le_rfl hvoice

/-- A session whose voice connection has dropped while one track is
still pending. -/
def lostVoiceState : PlayerState :=
  { is_playing := false, current := none,
    q := ⟨[⟨"A", "u", none⟩], none⟩,
    voice_connected := false, transport_playing := false,
    disconnect_timer := none, next_timer_id := 0 }

/-- Claim C1 counterexample: `_play_next` pops track "A" (resolution
succeeds), then the voice-connection check fails, and the call returns
with `is_playing = False` while `current` is still the popped track —
an inconsistent state that is neither Playing nor Idle-with-no-track. -/
theorem advance_inconsistent_without_voice :
    (play_next (fun _ => true) lostVoiceState).1.is_playing = false ∧
    (play_next (fun _ => true) lostVoiceState).1.current = some ⟨"A", "u", none⟩ := by
  rw [play_next_cons (fun _ => true) lostVoiceState ⟨"A", "u", none⟩ [] rfl]
  simp [lostVoiceState, after_pop]

/-- An idle connected session with one pending track. -/
def okVoiceState : PlayerState :=
  { is_playing := false, current := none,
    q := ⟨[⟨"A", "u", none⟩], none⟩,
    voice_connected := true, transport_playing := false,
    disconnect_timer := none, next_timer_id := 0 }

theorem advance_consistent_witness :
    (((play_next (fun _ => true) okVoiceState).1.is_playing = true ∧
      ((play_next (fun _ => true) okVoiceState).1.current).isSome = true ∧
      (play_next (fun _ => true) okVoiceState).1.transport_playing = true)
     ∨ ((play_next (fun _ => true) okVoiceState).1.is_playing = false ∧
        (play_next (fun _ => true) okVoiceState).1.current = none ∧
        (play_next (fun _ => true) okVoiceState).1.q.pending = [])) :=
  advance_consistent (fun _ => true) okVoiceState (by decide) rfl

/-- Claim C2: the completion callback schedules `_play_next` exactly
once, as its final action, whether or not it carries an error; an
error is surfaced in the log (and in chat for non-connection errors)
but never suppresses that advance. -/
theorem callback_always_advances (error : Option String) :
    ((after_play error).count BotAction.schedule_play_next = 1) ∧
    ((after_play error).getLast? = some BotAction.schedule_play_next) ∧
    (∀ e, error = some e → BotAction.log ("Playback error: " ++ e) ∈ after_play error) := by
  cases error with
  | none => refine ⟨by simp [after_play], by simp [after_play], by simp⟩
  | some e =>
      refine ⟨?_, ?_, ?_⟩
      · simp only [after_play]
        split <;> simp [List.count_append, List.count_cons]
      · simp only [after_play]
        rw [List.getLast?_concat]
      · intro e' he
        injection he with he'
        subst he'
        simp only [after_play]
        split <;> simp

theorem callback_always_advances_witness :
    ((after_play (some "boom")).count BotAction.schedule_play_next = 1) ∧
    (BotAction.log ("Playback error: " ++ "boom") ∈ after_play (some "boom")) :=
  ⟨(callback_always_advances (some "boom")).1,
   (callback_always_advances (some "boom")).2.2 "boom" rfl⟩

/-- Claim C5 (amended): seek is rejected with a notice when not
Playing; when Playing with a current track that carries no prior start
offset (a plain `(title, url)` pair), a valid in-range `mm:ss`
timestamp prepends a re-wrapped entry — the same url, the title
annotated with the offset, and `timestamp = minutes*60 + seconds` — to
the pending list, stops the transport, and that entry is what the
following `get_next` returns.  When the current item itself carries a
third start-offset element the unpacking raises `ValueError` and the
command is instead rejected with the invalid-format notice: see the
counterexample. -/
theorem seek_behaviour (s : PlayerState) (ts : String) :
    ((¬ (s.voice_connected = true ∧ s.transport_playing = true)) →
       (timestamp_skip s ts).1 = s ∧ (timestamp_skip s ts).2.1 = false ∧
       (timestamp_skip s ts).2.2 = ["The bot is not playing anything at the moment."]) ∧
    (∀ song m sec, s.voice_connected = true → s.transport_playing = true →
       s.current = some song → song.timestamp = none →
       parseTimestamp ts = some (m, sec) →
       ¬ (m < 0 ∨ sec < 0 ∨ 60 ≤ sec) →
       (timestamp_skip s ts).1.q.pending
           = ⟨song.title ++ " (from " ++ ts ++ ")", song.url, some (m * 60 + sec)⟩ :: s.q.pending ∧
       (timestamp_skip s ts).2.1 = true ∧
       ((timestamp_skip s ts).1.q.get_next).2
           = some ⟨song.title ++ " (from " ++ ts ++ ")", song.url, some (m * 60 + sec)⟩) := by
  constructor
  · intro h
    simp [timestamp_skip, h]
  · intro song m sec hv ht hcur hsong hparse hrange
    have hq : (timestamp_skip s ts).1.q.pending
        = ⟨song.title ++ " (from " ++ ts ++ ")", song.url, some (m * 60 + sec)⟩
            :: s.q.pending := by
      simp [timestamp_skip, hv, ht, hparse, hcur, hsong, hrange, MusicQueue.add_to_front]
    refine ⟨hq, ?_, ?_⟩
    · simp [timestamp_skip, hv, ht, hparse, hcur, hsong, hrange]
    · rw [get_next_cons _ _ _ hq]

/-- A session Playing a track that was itself started from a seek, so
the player's `current` is a 3-tuple `(title, url, timestamp)`. -/
def seekedCurrentState : PlayerState :=
  { is_playing := true, current := some ⟨"A", "u", some 90⟩,
    q := ⟨[], some ⟨"A", "u", none⟩⟩,
    voice_connected := true, transport_playing := true,
    disconnect_timer := none, next_timer_id := 0 }

/-- Claim C5 counterexample: while Playing a current track whose tuple
carries a start offset (the result of an earlier seek), a valid seek
to "1:30" enqueues nothing, stops nothing, and answers with the
invalid-format notice — `title, url = current_song` raises
`ValueError` on the 3-tuple. -/
theorem seek_fails_on_seeked_current :
    (timestamp_skip seekedCurrentState "1:30").1 = seekedCurrentState ∧
    (timestamp_skip seekedCurrentState "1:30").2.1 = false ∧
    (timestamp_skip seekedCurrentState "1:30").2.2
        = ["Invalid timestamp format. Use mm:ss or m:ss."] := by
  decide

/-- A session Playing a plain (no prior offset) current track. -/
def plainCurrentState : PlayerState :=
  { is_playing := true, current := some ⟨"A", "u", none⟩,
    q := ⟨[⟨"B", "w", none⟩], some ⟨"A", "u", none⟩⟩,
    voice_connected := true, transport_playing := true,
    disconnect_timer := none, next_timer_id := 0 }

theorem seek_behaviour_witness :
    (timestamp_skip plainCurrentState "1:30").1.q.pending
        = ⟨"A" ++ " (from " ++ "1:30" ++ ")", "u", some (1 * 60 + 30)⟩
            :: plainCurrentState.q.pending ∧
    (timestamp_skip plainCurrentState "1:30").2.1 = true ∧
    ((timestamp_skip plainCurrentState "1:30").1.q.get_next).2
        = some ⟨"A" ++ " (from " ++ "1:30" ++ ")", "u", some (1 * 60 + 30)⟩ :=
  (seek_behaviour plainCurrentState "1:30").2 ⟨"A", "u", none⟩ 1 30
    rfl rfl rfl rfl (by decide) (by decide)

/-- Claim C6 (amended): when a voice client is present, `leave` stops
playback, disconnects, empties the queue store, resets
`is_playing`/`current` and cancels the idle task; when no voice client
is present, `leave` only sends a notice and changes nothing — in
particular it does not clear the queue (see the counterexample). -/
theorem leave_behaviour (s : PlayerState) :
    (s.voice_connected = true →
       (leave s).1.q.pending = [] ∧ (leave s).1.q.current_item = none ∧
       (leave s).1.is_playing = false ∧ (leave s).1.current = none ∧
       (leave s).1.voice_connected = false ∧ (leave s).1.transport_playing = false ∧
       (leave s).1.disconnect_timer = none) ∧
    (s.voice_connected = false →
       (leave s).1 = s ∧
       (leave s).2 = ["The bot is not connected to a voice channel."]) := by
  constructor
  · intro h; simp [leave, h, MusicQueue.clear]
  · intro h; simp [leave, h]

/-- A session with no voice client but a non-empty pending list. -/
def disconnectedQueueState : PlayerState :=
  { is_playing := false, current := none,
    q := ⟨[⟨"A", "u", none⟩], none⟩,
    voice_connected := false, transport_playing := false,
    disconnect_timer := none, next_timer_id := 0 }

/-- Claim C6 counterexample: with no voice client, `leave` takes the
else-branch that only sends a notice, so the pending list — contrary
to the claim that leave clears the Queue Store in every state — is
left non-empty. -/
theorem leave_does_not_clear_when_disconnected :
    (leave disconnectedQueueState).1.q.pending = [⟨"A", "u", none⟩] ∧
    (leave disconnectedQueueState).2 = ["The bot is not connected to a voice channel."] := by
  decide

/-- A connected session with queued entries, for the leave witness. -/
def connectedBusyState : PlayerState :=
  { is_playing := true, current := some ⟨"A", "u", none⟩,
    q := ⟨[⟨"B", "w", none⟩], some ⟨"A", "u", none⟩⟩,
    voice_connected := true, transport_playing := true,
    disconnect_timer := none, next_timer_id := 3 }

theorem leave_behaviour_witness :
    ((leave connectedBusyState).1.q.pending = [] ∧
     (leave connectedBusyState).1.q.current_item = none ∧
     (leave connectedBusyState).1.is_playing = false ∧
     (leave connectedBusyState).1.current = none ∧
     (leave connectedBusyState).1.voice_connected = false ∧
     (leave connectedBusyState).1.transport_playing = false ∧
     (leave connectedBusyState).1.disconnect_timer = none) :=
  (leave_behaviour connectedBusyState).1 rfl

theorem play_next_timer (resolve : Entry → Bool) :
    ∀ n (s : PlayerState), s.q.pending.length ≤ n →
      (play_next resolve s).1.disconnect_timer = none ∨
      (play_next resolve s).1.disconnect_timer = some ⟨s.next_timer_id, 120⟩ := by
  intro n
  induction n with
  | zero =>
      intro s hlen
      have h : s.q.pending = [] := by
        cases hp : s.q.pending with
        | nil => rfl
        | cons a as => rw [hp] at hlen; simp at hlen
      rw [play_next_nil resolve s h]
      right; rfl
  | succ n ih =>
      intro s hlen
      cases hp : s.q.pending with
      | nil =>
          rw [play_next_nil resolve s hp]
          right; rfl
      | cons x xs =>
          rw [play_next_cons resolve s x xs hp]
          by_cases hr : resolve x
          · by_cases hv : s.voice_connected = true <;> left <;> simp [hr, hv, after_pop]
          · have hlen1 : (after_pop s x xs).q.pending.length ≤ n := by
              rw [hp] at hlen
              simpa [after_pop] using Nat.lt_succ_iff.mp (Nat.lt_of_lt_of_le (by simp) hlen)
            have := ih (after_pop s x xs) hlen1
            simpa [hr, after_pop] using this

/-- Claim C7: `_play_next` on an empty queue arms an idle task with a
120-second delay; the task body disconnects only when at fire time the
queue is still empty and nothing is playing, and is otherwise a no-op;
and the play command's enqueue path (add, then `_play_next` when the
session is idle) never leaves the previously pending idle task armed,
because `_play_next` cancels it before anything else. -/
theorem idle_timer_behaviour (resolve : Entry → Bool) (s : PlayerState) :
    (s.q.pending = [] →
       (play_next resolve s).1.disconnect_timer = some ⟨s.next_timer_id, 120⟩) ∧
    ((timer_fire s).2.1 = true → s.q.pending = [] ∧ s.is_playing = false) ∧
    (¬ (s.q.pending = [] ∧ s.is_playing = false) → timer_fire s = (s, false, [])) ∧
    (∀ t title url, s.disconnect_timer = some t → t.id < s.next_timer_id →
       s.is_playing = false →
       (handle_url_ok resolve s title url).1.disconnect_timer ≠ some t) := by
  have hEmpty : (s.q.is_empty = true) ↔ s.q.pending = [] := by
    simp [MusicQueue.is_empty, List.length_eq_zero]
  refine ⟨?_, ?_, ?_, ?_⟩
  · intro h
    rw [play_next_nil resolve s h]
  · intro hfire
    by_cases hc : s.q.is_empty = true ∧ s.is_playing = false
    · exact ⟨hEmpty.mp hc.1, hc.2⟩
    · exfalso
      simp only [timer_fire, if_neg hc] at hfire
      cases hfire
  · intro h
    have hc : ¬ (s.q.is_empty = true ∧ s.is_playing = false) := by
      intro hc
      exact h ⟨hEmpty.mp hc.1, hc.2⟩
    simp [timer_fire, hc]
  · intro t title url hpend hid hplay hcontra
    simp [handle_url_ok, hplay] at hcontra
    rcases play_next_timer resolve
        ({ s with is_playing := false, q := s.q.add title url } : PlayerState).q.pending.length
        { s with is_playing := false, q := s.q.add title url } le_rfl with h | h
    · rw [h] at hcontra; cases hcontra
    · rw [h] at hcontra
      injection hcontra with he
      rw [← he] at hid
      simp at hid

/-- An idle connected session with an empty queue about to arm the
idle task. -/
def emptyIdleState : PlayerState :=
  { is_playing := false, current := none, q := ⟨[], none⟩,
    voice_connected := true, transport_playing := false,
    disconnect_timer := none, next_timer_id := 5 }

/-- An idle session with the idle task pending. -/
def pendingTimerState : PlayerState :=
  { is_playing := false, current := none, q := ⟨[], none⟩,
    voice_connected := true, transport_playing := false,
    disconnect_timer := some ⟨0, 120⟩, next_timer_id := 1 }

/-- A session in the middle of playback. -/
def busyPlayingState : PlayerState :=
  { is_playing := true, current := some ⟨"A", "u", none⟩,
    q := ⟨[], some ⟨"A", "u", none⟩⟩,
    voice_connected := true, transport_playing := true,
    disconnect_timer := none, next_timer_id := 0 }

theorem idle_timer_behaviour_witness :
    ((play_next (fun _ => true) emptyIdleState).1.disconnect_timer = some ⟨5, 120⟩) ∧
    (emptyIdleState.q.pending = [] ∧ emptyIdleState.is_playing = false) ∧
    (timer_fire busyPlayingState = (busyPlayingState, false, [])) ∧
    ((handle_url_ok (fun _ => true) pendingTimerState "t" "u").1.disconnect_timer
        ≠ some ⟨0, 120⟩) :=
  ⟨(idle_timer_behaviour (fun _ => true) emptyIdleState).1 rfl,
   (idle_timer_behaviour (fun _ => true) emptyIdleState).2.1 (by decide),
   (idle_timer_behaviour (fun _ => true) busyPlayingState).2.2.1 (by decide),
   (idle_timer_behaviour (fun _ => true) pendingTimerState).2.2.2 ⟨0, 120⟩ "t" "u"
     rfl (by decide) rfl⟩

/-- Claim C9: when the author is in a voice channel, no client is
already connected there, and every connect attempt fails, the default
three-attempt loop makes exactly 3 attempts with exponential backoff
sleeps of `2 ** 0` and `2 ** 1` seconds between them, notifies the
caller of terminal failure, returns no voice client, and leaves the
session state (in particular `is_playing`/`current`) untouched. -/
theorem connect_all_fail (env : ConnectEnv) (s : PlayerState)
    (h1 : env.author_in_voice = true) (h2 : env.same_channel_connected = false)
    (h3 : env.other_channel_connected = false)
    (hf : ∀ i, i < 3 → env.attempt_ok i = false) :
    (connect_to_voice env s 3).2.connected = false ∧
    (connect_to_voice env s 3).2.attempts = 3 ∧
    (connect_to_voice env s 3).2.sleeps = [2 ^ 0, 2 ^ 1] ∧
    ("Failed to join after " ++ toString 3 ++ " attempts")
        ∈ (connect_to_voice env s 3).2.sends ∧
    (connect_to_voice env s 3).1 = s := by
  have e0 := hf 0 (by omega)
  have e1 := hf 1 (by omega)
  have e2 := hf 2 (by omega)
  have hr : List.range 3 = [0, 1, 2] := by decide
  simp [connect_to_voice, h1, h2, h3, hr, connect_loop, e0, e1, e2]

theorem connect_all_fail_witness :
    (connect_to_voice ⟨true, false, false, fun _ => false⟩ emptyIdleState 3).2.connected
        = false ∧
    (connect_to_voice ⟨true, false, false, fun _ => false⟩ emptyIdleState 3).2.attempts = 3 ∧
    (connect_to_voice ⟨true, false, false, fun _ => false⟩ emptyIdleState 3).2.sleeps
        = [2 ^ 0, 2 ^ 1] ∧
    ("Failed to join after " ++ toString 3 ++ " attempts")
        ∈ (connect_to_voice ⟨true, false, false, fun _ => false⟩ emptyIdleState 3).2.sends ∧
    (connect_to_voice ⟨true, false, false, fun _ => false⟩ emptyIdleState 3).1
        = emptyIdleState :=
  connect_all_fail ⟨true, false, false, fun _ => false⟩ emptyIdleState
    rfl rfl rfl (fun _ _ => rfl)

